import Mathlib

/-!
# Verification of the chemviz-analytics CSV ingestion and statistics pipeline

Shallow embedding of the core pipeline of `src/backend/analytics/services.py`
(class `AnalyticsService`) and the retention logic of
`src/backend/analytics/models.py` (`EquipmentDataset.save` /
`EquipmentDataset._enforce_retention_limit`), together with theorems checking
the natural-language specification against it.

Conventions of the embedding:
* pandas `NaN` cells and "not computable" statistics are modelled as `Option`
  values (`none` = NaN); validated numeric data are exact rationals `ℚ`
  (the claims under check never depend on float rounding error).
* A `Csv` value is the dataframe produced by `pd.read_csv`: the header list and
  the list of cell rows.  Raw-text parsing itself (and its
  `"Failed to parse CSV"` error) is below the level of every claim and is not
  modelled.
* Python's `str.strip`/`str.lower` and pandas cell-to-text conversion are
  modelled structurally over character lists so that the kernel can evaluate
  concrete runs of the pipeline.
* The database is a record of dataset and record tables; Django's
  `transaction.atomic` is modelled by returning `Except`: an error produces no
  new database state, so nothing is persisted on failure.
-/

namespace ChemViz

/-- Python `str.strip()`: remove leading and trailing whitespace.  Modelled
structurally over the character list (Python additionally strips `\v`/`\f`,
which never occur in the data under any claim). -/
def pyStrip (s : String) : String :=
  ⟨((s.data.dropWhile Char.isWhitespace).reverse.dropWhile Char.isWhitespace).reverse⟩

/-- Python `str.lower()`: lower-case every character (header aliases and
equipment types in scope are ASCII, where `Char.toLower` and Python agree). -/
def pyLower (s : String) : String :=
  ⟨s.data.map Char.toLower⟩

/-- One dataframe cell as produced by `pd.read_csv`:
an empty field becomes NaN (`missing`), a numeric field carries its value
(`num`), any other text is a plain string (`str`).  This is exactly the
classification that `dropna` (drops `missing`) and
`pd.to_numeric(errors='coerce')` (maps non-`num` to NaN) act on. -/
inductive Cell where
  | missing : Cell
  | str : String → Cell
  | num : ℚ → Cell
deriving DecidableEq, Repr

/-- `.astype(str)`: pandas renders a NaN cell as the literal string `"nan"`;
text cells pass through.  (The textual rendering of a numeric cell differs
between Python and `ℚ`; no claim under check depends on it.) -/
def Cell.toText : Cell → String
  | .missing => "nan"
  | .str s => s
  | .num q => toString q

/-- Is this cell NaN (the predicate `dropna` filters on)? -/
def Cell.isMissing : Cell → Bool
  | .missing => true
  | _ => false

/-- `pd.to_numeric(errors='coerce')` on one cell: numbers pass through,
anything else becomes NaN. -/
def Cell.toNumeric : Cell → Option ℚ
  | .num q => some q
  | _ => none

/-- The dataframe produced by `pd.read_csv`: header row plus data rows. -/
structure Csv where
  headers : List String
  rows : List (List Cell)
deriving Repr

/-- `REQUIRED_COLUMNS` from services.py: canonical field name to its
recognized alias spellings. -/
def REQUIRED_COLUMNS : List (String × List String) :=
  [("equipment_name", ["equipment name", "equipment_name", "name", "equipmentname"]),
   ("equipment_type", ["equipment type", "equipment_type", "type", "equipmenttype"]),
   ("flowrate", ["flowrate", "flow_rate", "flow rate", "flow"]),
   ("pressure", ["pressure", "press"]),
   ("temperature", ["temperature", "temp"])]

/-- The five canonical field names, in declaration order. -/
def requiredKeys : List String := REQUIRED_COLUMNS.map (fun kv => kv.1)

/-- `AnalyticsService.normalize_column_name`: case-insensitively,
whitespace-trimmed match of a header against the alias table; `none` when the
header is unrecognized. -/
def normalize_column_name (col : String) : Option String :=
  let col_lower := pyLower (pyStrip col)
  (REQUIRED_COLUMNS.find? (fun kv => kv.2.contains col_lower)).map (fun kv => kv.1)

/-- The canonical fields having no recognized header, in canonical order
(the source computes this as the set difference `required - found`;
Python's set iteration order is unspecified, so the embedding fixes the
canonical order.  Every claim about this list is order-insensitive). -/
def missingFields (headers : List String) : List String :=
  requiredKeys.filter (fun k => !(headers.any (fun h => normalize_column_name h == some k)))

/-- `", ".join` -/
def joinComma (l : List String) : String := String.intercalate ", " l

/-- The `CSVValidationError` message for missing required columns:
names every missing canonical field and echoes the original header list. -/
def missingColumnsMessage (missing : List String) (headers : List String) : String :=
  "Missing required columns: " ++ joinComma missing ++ ". Found columns: " ++ joinComma headers

/-- A row of the working table after projection to the five canonical
columns, cells still raw. -/
structure RawRow where
  name : Cell
  etype : Cell
  flow : Cell
  pres : Cell
  temp : Cell
deriving DecidableEq, Repr

/-- Number of headers that normalize to canonical field `key`.  When this is
2 or more for some field, pandas `rename` keeps *duplicate* column labels and
the source never reaches a projected table: a duplicated string column makes
`.str` fail on a two-column frame (AttributeError at services.py:153), and a
duplicated numeric column makes `pd.to_numeric` raise, surfaced as a
`CSVValidationError` — ingestion fails either way.  The embedding's
projection is therefore faithful only when every field has at most one
matching header, and the success theorem assumes exactly that. -/
def matchingHeaderCount (headers : List String) (key : String) : Nat :=
  (headers.filter (fun h => normalize_column_name h == some key)).length

/-- Index of the first header that normalizes to canonical field `key`.
This first-match rule coincides with the source's projection exactly when at
most one header matches the field; on duplicate-alias headers the source
fails instead of projecting (see `matchingHeaderCount`), so theorems that
assert successful ingestion restrict to at most one match per field. -/
def colIndex (headers : List String) (key : String) : Option Nat :=
  headers.findIdx? (fun h => normalize_column_name h == some key)

/-- Fetch the cell of a row at an optional column index (a short row pads
with NaN, as pandas does). -/
def cellAt (row : List Cell) : Option Nat → Cell
  | some j => row.getD j .missing
  | none => .missing

/-- Projection of one parsed row onto the five canonical columns
(`df.rename(columns=column_mapping)` followed by
`df[list(REQUIRED_COLUMNS.keys())]`), taking the first header matching each
field.  Faithful to the source only for headers with at most one match per
canonical field — with duplicate alias headers the source crashes or raises
rather than projecting (see `matchingHeaderCount`). -/
def projectRow (headers : List String) (row : List Cell) : RawRow :=
  { name := cellAt row (colIndex headers "equipment_name"),
    etype := cellAt row (colIndex headers "equipment_type"),
    flow := cellAt row (colIndex headers "flowrate"),
    pres := cellAt row (colIndex headers "pressure"),
    temp := cellAt row (colIndex headers "temperature") }

/-- Does the row have a NaN in flowrate, pressure or temperature
(the predicate of `df.dropna(subset=['flowrate','pressure','temperature'])`)? -/
def RawRow.hasMissingNumeric (r : RawRow) : Bool :=
  r.flow.isMissing || r.pres.isMissing || r.temp.isMissing

/-- One fully validated row: numeric columns coerced, strings cleaned
(`equipment_name` stripped, `equipment_type` stripped and lower-cased). -/
structure Row where
  equipment_name : String
  equipment_type : String
  flowrate : ℚ
  pressure : ℚ
  temperature : ℚ
deriving DecidableEq, Repr

/-- Numeric coercion of one raw row (`pd.to_numeric(errors='coerce')` on the
three numeric columns, then the second `dropna`): `none` when any of the three
fails to parse, otherwise the validated row with its string columns cleaned
(the source cleans strings after the drops, on the surviving rows —
row-wise the two orders agree). -/
def RawRow.coerceNumeric (r : RawRow) : Option Row :=
  match r.flow.toNumeric, r.pres.toNumeric, r.temp.toNumeric with
  | some f, some p, some t =>
      some { equipment_name := pyStrip r.name.toText,
             equipment_type := pyLower (pyStrip r.etype.toText),
             flowrate := f, pressure := p, temperature := t }
  | _, _, _ => none

/-- The working table after column projection. -/
def projectedRows (csv : Csv) : List RawRow :=
  csv.rows.map (projectRow csv.headers)

/-- The table after dropping rows with missing numeric values (step `dropna`). -/
def rowsAfterMissingDrop (csv : Csv) : List RawRow :=
  (projectedRows csv).filter (fun r => !r.hasMissingNumeric)

/-- The final validated table: rows surviving both the missing-value drop and
the numeric-coercion drop. -/
def cleanRows (csv : Csv) : List Row :=
  (rowsAfterMissingDrop csv).filterMap RawRow.coerceNumeric

/-- Number of rows dropped for missing flowrate/pressure/temperature values
(`initial_count - len(df)` at the first `dropna`). -/
def droppedMissingCount (csv : Csv) : Nat :=
  (projectedRows csv).length - (rowsAfterMissingDrop csv).length

/-- Number of rows dropped because a numeric coercion failed
(`before_count - len(df)` at the second `dropna`). -/
def droppedNonNumericCount (csv : Csv) : Nat :=
  (rowsAfterMissingDrop csv).length - (cleanRows csv).length

/-- Warning emitted when rows with missing numeric values were dropped. -/
def droppedMissingWarning (n : Nat) : String :=
  "Dropped " ++ toString n ++ " rows with missing numeric values."

/-- Warning emitted when rows with non-numeric values were dropped. -/
def droppedNonNumericWarning (n : Nat) : String :=
  "Dropped " ++ toString n ++ " rows with non-numeric values."

/-- `AnalyticsService.parse_and_validate_csv`, from the parsed dataframe on:
empty check, required-columns check, projection, missing-value drop (with
re-check), numeric coercion drop (the source performs no second zero-row
check here), sanity warnings, string cleaning.  `Except.error` models raising
`CSVValidationError` with that message. -/
def parse_and_validate_csv (csv : Csv) : Except String (List Row × List String) :=
  if csv.rows.isEmpty then
    .error "CSV file is empty or contains no data rows."
  else
    let missing := missingFields csv.headers
    if missing.isEmpty then
      let initial_count := (projectedRows csv).length
      let table1 := rowsAfterMissingDrop csv
      let dropped_count := initial_count - table1.length
      let w1 : List String :=
        if 0 < dropped_count then [droppedMissingWarning dropped_count] else []
      if table1.length = 0 then
        .error "No valid data rows remain after removing rows with missing values."
      else
        let rows := cleanRows csv
        let w2 : List String :=
          if rows.length < table1.length then
            [droppedNonNumericWarning (table1.length - rows.length)] else []
        let w3 : List String :=
          if rows.any (fun r => decide (r.flowrate < 0)) then
            ["Some flowrate values are negative."] else []
        let w4 : List String :=
          if rows.any (fun r => decide (r.pressure < 0)) then
            ["Some pressure values are negative."] else []
        .ok (rows, w1 ++ (w2 ++ (w3 ++ w4)))
    else
      .error (missingColumnsMessage missing csv.headers)

/-! ### Statistics Engine (`AnalyticsService.compute_statistics`) -/

/-- Column mean: `Series.mean()`; NaN (= `none`) on an empty column. -/
def colMean (xs : List ℚ) : Option ℚ :=
  if xs.length = 0 then none else some (xs.sum / (xs.length : ℚ))

/-- One fold step of a column minimum. -/
def minStep (a : ℚ) : Option ℚ → Option ℚ
  | none => some a
  | some b => some (min a b)

/-- One fold step of a column maximum. -/
def maxStep (a : ℚ) : Option ℚ → Option ℚ
  | none => some a
  | some b => some (max a b)

/-- Column minimum: `Series.min()`; NaN (= `none`) on an empty column. -/
def colMin (xs : List ℚ) : Option ℚ := xs.foldr minStep none

/-- Column maximum: `Series.max()`; NaN (= `none`) on an empty column. -/
def colMax (xs : List ℚ) : Option ℚ := xs.foldr maxStep none

/-- The radicand of `Series.std()` (pandas default `ddof=1`): the sample
variance with `N - 1` denominator, `none` (NaN) when fewer than two values.
The standard deviation reported by the source is the square root of this
quantity, which leaves `ℚ`; since the square root (and its subsequent
rounding) is a function of this value, definedness and equality of the
reported std correspond exactly to definedness and equality of this value,
which is what every claim under check needs. -/
def sampleVariance (xs : List ℚ) : Option ℚ :=
  if xs.length < 2 then none
  else some ((xs.map (fun x => (x - xs.sum / (xs.length : ℚ)) ^ 2)).sum /
    ((xs.length : ℚ) - 1))

/-- Python `round(x, 4)` on an exact value: round half to even at the fourth
decimal place. -/
def roundHalfEven (x : ℚ) : ℤ :=
  let f := ⌊x⌋
  let r := x - (f : ℚ)
  if r < 1 / 2 then f
  else if 1 / 2 < r then f + 1
  else if f % 2 = 0 then f else f + 1

/-- `round(·, 4)` as applied to every statistic in the source. -/
def round4 (x : ℚ) : ℚ := (roundHalfEven (x * 10000) : ℚ) / 10000

/-- The statistics dictionary of `compute_statistics`.  `type_distribution`
is `value_counts().to_dict()`: as a mapping it sends each equipment type to
its number of occurrences, which is exactly the count function of the
multiset of `equipment_type` values (the dict's insertion order carries no
information the source ever reads). -/
structure Stats where
  total_equipment : Nat
  avg_flowrate : Option ℚ
  avg_pressure : Option ℚ
  avg_temperature : Option ℚ
  min_flowrate : Option ℚ
  max_flowrate : Option ℚ
  min_pressure : Option ℚ
  max_pressure : Option ℚ
  min_temperature : Option ℚ
  max_temperature : Option ℚ
  std_flowrate : Option ℚ
  std_pressure : Option ℚ
  std_temperature : Option ℚ
  type_distribution : Multiset String
deriving DecidableEq

/-- `AnalyticsService.compute_statistics` on a validated table. -/
def compute_statistics (rows : List Row) : Stats :=
  let fl := rows.map Row.flowrate
  let pr := rows.map Row.pressure
  let te := rows.map Row.temperature
  { total_equipment := rows.length,
    avg_flowrate := (colMean fl).map round4,
    avg_pressure := (colMean pr).map round4,
    avg_temperature := (colMean te).map round4,
    min_flowrate := (colMin fl).map round4,
    max_flowrate := (colMax fl).map round4,
    min_pressure := (colMin pr).map round4,
    max_pressure := (colMax pr).map round4,
    min_temperature := (colMin te).map round4,
    max_temperature := (colMax te).map round4,
    std_flowrate := sampleVariance fl,
    std_pressure := sampleVariance pr,
    std_temperature := sampleVariance te,
    type_distribution := (rows.map Row.equipment_type : Multiset String) }

/-! ### Persistence layer (models.py) and the Ingestion Orchestrator -/

/-- A persisted `EquipmentDataset` row (the fields the core logic touches;
`file_path` is never set by the pipeline). -/
structure EquipmentDataset where
  id : Nat
  userId : Nat
  filename : String
  uploaded_at : Nat
  total_records : Nat
  avg_flowrate : Option ℚ
  avg_pressure : Option ℚ
  avg_temperature : Option ℚ
deriving DecidableEq, Repr

/-- A persisted `EquipmentRecord` row. -/
structure EquipmentRecord where
  datasetId : Nat
  name : String
  equipment_type : String
  flowrate : ℚ
  pressure : ℚ
  temperature : ℚ
deriving DecidableEq, Repr

/-- The database state: the two tables, the autoincrement id source and a
monotone clock standing for `timezone.now` (successive uploads get strictly
increasing timestamps). -/
structure Db where
  datasets : List EquipmentDataset
  records : List EquipmentRecord
  nextId : Nat
  clock : Nat
deriving DecidableEq

/-- The two failure modes an upload can surface: a `CSVValidationError`
carrying its message, or the `TypeError` Django raises when `delete()` is
called on a sliced queryset (see `enforce_retention_limit`). -/
inductive UploadError where
  | validation : String → UploadError
  | sliceDeleteTypeError : UploadError
deriving DecidableEq, Repr

/-- `settings.MAX_DATASETS_RETAINED` (settings.py line 177). -/
def MAX_DATASETS_RETAINED : Nat := 5

/-- All datasets of one owner. -/
def ownerDatasets (db : Db) (userId : Nat) : List EquipmentDataset :=
  db.datasets.filter (fun d => d.userId == userId)

/-- `EquipmentDataset.objects.filter(user=...).order_by('-uploaded_at')`:
the owner's datasets, newest first. -/
def userDatasetsNewestFirst (db : Db) (userId : Nat) : List EquipmentDataset :=
  (ownerDatasets db userId).insertionSort (fun a b => b.uploaded_at ≤ a.uploaded_at)

/-- `EquipmentDataset._enforce_retention_limit`.  The source slices the
ordered queryset (`user_datasets[max_datasets:]`) and, when the slice is
non-empty, deletes the associated records and then calls `.delete()` on the
sliced queryset itself.  Django's `QuerySet.delete` rejects sliced querysets
(`TypeError: Cannot use 'limit' or 'offset' with delete()` — an `assert` with
the same text in older Django), so the whole save raises and the surrounding
transaction rolls back; under the atomic model the record deletions that
preceded the raise are undone, so the error branch returns no state. -/
def enforce_retention_limit (db : Db) (userId : Nat) : Except UploadError Db :=
  let user_datasets := userDatasetsNewestFirst db userId
  let datasets_to_delete := user_datasets.drop MAX_DATASETS_RETAINED
  if datasets_to_delete.isEmpty then .ok db
  else .error .sliceDeleteTypeError

/-- `EquipmentDataset.save`: insert the row, then enforce retention. -/
def dataset_save (db : Db) (d : EquipmentDataset) : Except UploadError Db :=
  enforce_retention_limit
    { db with datasets := db.datasets ++ [d] } d.userId

/-- `AnalyticsService.process_upload` (`@transaction.atomic`): validate,
compute statistics, create the dataset (whose `save` enforces retention),
bulk-insert the records, return `(dataset, stats, warnings)`.  An `Except.error`
result carries no database state: the transaction rolled back and nothing was
persisted. -/
def process_upload (db : Db) (userId : Nat) (filename : String) (csv : Csv) :
    Except UploadError (Db × EquipmentDataset × Stats × List String) :=
  match parse_and_validate_csv csv with
  | .error m => .error (.validation m)
  | .ok (rows, warnings) =>
    let stats := compute_statistics rows
    let dataset : EquipmentDataset :=
      { id := db.nextId, userId := userId, filename := filename,
        uploaded_at := db.clock,
        total_records := stats.total_equipment,
        avg_flowrate := stats.avg_flowrate,
        avg_pressure := stats.avg_pressure,
        avg_temperature := stats.avg_temperature }
    match dataset_save { db with nextId := db.nextId + 1, clock := db.clock + 1 } dataset with
    | .error e => .error e
    | .ok db1 =>
      let recs := rows.map (fun r =>
        EquipmentRecord.mk dataset.id r.equipment_name r.equipment_type
          r.flowrate r.pressure r.temperature)
      .ok ({ db1 with records := db1.records ++ recs }, dataset, stats, warnings)

/-- Lexicographic order on character lists (the order Django's
`ordering = ['name']` reloads records in; modelled structurally because the
claims only need that reloading is a reordering). -/
def charListLe : List Char → List Char → Prop
  | [], _ => True
  | _ :: _, [] => False
  | a :: as, b :: bs => a < b ∨ (a = b ∧ charListLe as bs)

instance : DecidableRel charListLe := fun l₁ l₂ => by
  induction l₁ generalizing l₂ with
  | nil => exact isTrue (by cases l₂ <;> trivial)
  | cons a as ih =>
    cases l₂ with
    | nil => exact isFalse (fun h => h)
    | cons b bs => exact @instDecidableOr _ _ _ (@instDecidableAnd _ _ _ (ih bs))

/-- `dataset.records.all()` under `EquipmentRecord.Meta.ordering = ['name']`:
the dataset's records, reloaded ordered by name. -/
def reloadRecords (db : Db) (datasetId : Nat) : List EquipmentRecord :=
  (db.records.filter (fun r => r.datasetId == datasetId)).insertionSort
    (fun a b => charListLe a.name.data b.name.data)

/-- A reloaded record as a row for recomputation.  (The summary dataframe
selects only `flowrate`, `pressure`, `temperature`, `equipment_type`;
`compute_statistics` never reads `equipment_name`, so carrying the name along
is observationally identical.) -/
def EquipmentRecord.toRow (r : EquipmentRecord) : Row :=
  { equipment_name := r.name, equipment_type := r.equipment_type,
    flowrate := r.flowrate, pressure := r.pressure, temperature := r.temperature }

/-- The all-zero statistics `get_dataset_summary` returns for a dataset with
no records (literal `0` entries and an empty distribution dict). -/
def zeroStats : Stats :=
  { total_equipment := 0,
    avg_flowrate := some 0, avg_pressure := some 0, avg_temperature := some 0,
    min_flowrate := some 0, max_flowrate := some 0,
    min_pressure := some 0, max_pressure := some 0,
    min_temperature := some 0, max_temperature := some 0,
    std_flowrate := some 0, std_pressure := some 0, std_temperature := some 0,
    type_distribution := 0 }

/-- `AnalyticsService.get_dataset_summary`, statistics portion (the returned
dict additionally carries `dataset_id`, `filename`, `uploaded_at` metadata,
which no claim compares): recompute the statistics from the reloaded records,
or return the all-zero statistics when the dataset has none. -/
def get_dataset_summary (db : Db) (dataset : EquipmentDataset) : Stats :=
  if (reloadRecords db dataset.id).isEmpty then zeroStats
  else compute_statistics ((reloadRecords db dataset.id).map EquipmentRecord.toRow)

/-! ### Concrete fixtures used by witnesses and counterexamples -/

/-- A fresh database. -/
def emptyDb : Db := { datasets := [], records := [], nextId := 0, clock := 0 }

/-- A well-formed single-row CSV with canonical headers. -/
def goodCsv : Csv :=
  { headers := ["name", "type", "flowrate", "pressure", "temperature"],
    rows := [[Cell.str "P1", Cell.str "pump", Cell.num 10, Cell.num 20, Cell.num 30]] }

/-- The validated row of `goodCsv`. -/
def p1Row : Row :=
  { equipment_name := "P1", equipment_type := "pump",
    flowrate := 10, pressure := 20, temperature := 30 }

/-- A CSV whose single data row has all numeric cells present but
non-numeric: it survives the missing-value drop and is then dropped by the
coercion drop, leaving zero rows. -/
def allNonNumericCsv : Csv :=
  { headers := ["name", "type", "flowrate", "pressure", "temperature"],
    rows := [[Cell.str "P1", Cell.str "pump", Cell.str "abc", Cell.num 1, Cell.num 2]] }

/-- The aliased/mixed-case CSV of the spec's section-8 scenario. -/
def aliasCsv : Csv :=
  { headers := ["Equipment Name", "Type", "Flow Rate", "Pressure", "Temp"],
    rows := [[Cell.str "Pump-1", Cell.str "pump", Cell.num (25 / 2),
              Cell.num (1013 / 10), Cell.num 25],
             [Cell.str "Valve-2", Cell.str "valve", Cell.missing,
              Cell.num (999 / 10), Cell.num (241 / 10)]] }

/-- A CSV with unrecognized headers and one data row. -/
def fooBarCsv : Csv :=
  { headers := ["foo", "bar", "baz"],
    rows := [[Cell.num 1, Cell.num 2, Cell.num 3]] }

/-- A CSV with unrecognized headers and no data rows. -/
def fooBarHeaderOnlyCsv : Csv :=
  { headers := ["foo", "bar", "baz"], rows := [] }

/-- A pre-existing dataset of user 1 with upload timestamp `t`. -/
def oldDataset (i t : Nat) : EquipmentDataset :=
  { id := i, userId := 1, filename := "old.csv", uploaded_at := t,
    total_records := 1, avg_flowrate := some 1, avg_pressure := some 1,
    avg_temperature := some 1 }

/-- A database where user 1 already holds the full retention quota of 5
datasets. -/
def fullDb : Db :=
  { datasets := [oldDataset 0 0, oldDataset 1 1, oldDataset 2 2,
                 oldDataset 3 3, oldDataset 4 4],
    records := [], nextId := 5, clock := 5 }

/-- The dataset row created by ingesting `goodCsv` into `emptyDb` as user 1. -/
def goodDataset : EquipmentDataset :=
  { id := 0, userId := 1, filename := "f.csv", uploaded_at := 0,
    total_records := 1, avg_flowrate := some 10, avg_pressure := some 20,
    avg_temperature := some 30 }

/-- The statistics computed for `goodCsv`. -/
def goodStats : Stats :=
  { total_equipment := 1,
    avg_flowrate := some 10, avg_pressure := some 20, avg_temperature := some 30,
    min_flowrate := some 10, max_flowrate := some 10,
    min_pressure := some 20, max_pressure := some 20,
    min_temperature := some 30, max_temperature := some 30,
    std_flowrate := none, std_pressure := none, std_temperature := none,
    type_distribution := ((["pump"] : List String) : Multiset String) }

/-- The database state after ingesting `goodCsv` into `emptyDb` as user 1. -/
def goodDb : Db :=
  { datasets := [goodDataset],
    records := [{ datasetId := 0, name := "P1", equipment_type := "pump",
                  flowrate := 10, pressure := 20, temperature := 30 }],
    nextId := 1, clock := 1 }

/-- The zero-record dataset row created by ingesting `allNonNumericCsv`
into `emptyDb` as user 1. -/
def orphanDataset : EquipmentDataset :=
  { id := 0, userId := 1, filename := "bad.csv", uploaded_at := 0,
    total_records := 0, avg_flowrate := none, avg_pressure := none,
    avg_temperature := none }

/-- The statistics computed at ingestion time for `allNonNumericCsv`
(empty table: every aggregate is NaN). -/
def orphanStats : Stats :=
  { total_equipment := 0,
    avg_flowrate := none, avg_pressure := none, avg_temperature := none,
    min_flowrate := none, max_flowrate := none,
    min_pressure := none, max_pressure := none,
    min_temperature := none, max_temperature := none,
    std_flowrate := none, std_pressure := none, std_temperature := none,
    type_distribution := 0 }

/-- The database state after ingesting `allNonNumericCsv` into `emptyDb`:
one dataset row, zero records. -/
def orphanDb : Db :=
  { datasets := [orphanDataset], records := [], nextId := 1, clock := 1 }

/-! ### Permutation invariance of the Statistics Engine -/

instance : LeftCommutative minStep :=
  ⟨fun a b c => by cases c <;> simp [minStep, min_left_comm, min_comm]⟩

instance : LeftCommutative maxStep :=
  ⟨fun a b c => by cases c <;> simp [maxStep, max_left_comm, max_comm]⟩

theorem colMin_perm {xs ys : List ℚ} (h : xs.Perm ys) : colMin xs = colMin ys :=
  h.foldr_eq none

theorem colMax_perm {xs ys : List ℚ} (h : xs.Perm ys) : colMax xs = colMax ys :=
  h.foldr_eq none

theorem colMean_perm {xs ys : List ℚ} (h : xs.Perm ys) : colMean xs = colMean ys := by
  unfold colMean
  rw [h.length_eq, h.sum_eq]

theorem sampleVariance_perm {xs ys : List ℚ} (h : xs.Perm ys) :
    sampleVariance xs = sampleVariance ys := by
  unfold sampleVariance
  rw [h.length_eq, h.sum_eq,
    (h.map (fun x => (x - ys.sum / (ys.length : ℚ)) ^ 2)).sum_eq]

/-- The Statistics Engine is insensitive to row order: every computed field
is a function of the multiset of rows. -/
theorem compute_statistics_perm {xs ys : List Row} (h : xs.Perm ys) :
    compute_statistics xs = compute_statistics ys := by
  unfold compute_statistics
  have hfl := h.map Row.flowrate
  have hpr := h.map Row.pressure
  have hte := h.map Row.temperature
  simp only [h.length_eq, colMean_perm hfl, colMean_perm hpr, colMean_perm hte,
    colMin_perm hfl, colMin_perm hpr, colMin_perm hte,
    colMax_perm hfl, colMax_perm hpr, colMax_perm hte,
    sampleVariance_perm hfl, sampleVariance_perm hpr, sampleVariance_perm hte,
    Multiset.coe_eq_coe.mpr (h.map Row.equipment_type)]

/-! ### Characterization of retention enforcement -/

theorem userDatasetsNewestFirst_length (db : Db) (u : Nat) :
    (userDatasetsNewestFirst db u).length = (ownerDatasets db u).length :=
  List.length_insertionSort _ _

/-- Retention succeeds (without deleting anything) exactly when the owner is
at or below the bound; beyond it, the sliced-queryset `delete()` raises. -/
theorem enforce_retention_limit_ok_iff (db : Db) (u : Nat) :
    enforce_retention_limit db u = .ok db ↔
      (ownerDatasets db u).length ≤ MAX_DATASETS_RETAINED := by
  unfold enforce_retention_limit
  rcases le_or_lt (ownerDatasets db u).length MAX_DATASETS_RETAINED with hle | hlt
  · have : (userDatasetsNewestFirst db u).drop MAX_DATASETS_RETAINED = [] := by
      rw [List.drop_eq_nil_iff, userDatasetsNewestFirst_length]; exact hle
    simp [this, hle]
  · have : ((userDatasetsNewestFirst db u).drop MAX_DATASETS_RETAINED).isEmpty = false := by
      rw [Bool.eq_false_iff]
      intro hc
      rw [List.isEmpty_iff, List.drop_eq_nil_iff, userDatasetsNewestFirst_length] at hc
      omega
    simp [this]
    omega

theorem enforce_retention_limit_error (db : Db) (u : Nat)
    (h : MAX_DATASETS_RETAINED < (ownerDatasets db u).length) :
    enforce_retention_limit db u = .error .sliceDeleteTypeError := by
  unfold enforce_retention_limit
  have : ((userDatasetsNewestFirst db u).drop MAX_DATASETS_RETAINED).isEmpty = false := by
    rw [Bool.eq_false_iff]
    intro hc
    rw [List.isEmpty_iff, List.drop_eq_nil_iff, userDatasetsNewestFirst_length] at hc
    omega
  simp [this]

theorem ownerDatasets_snoc (db : Db) (u : Nat) (d : EquipmentDataset)
    (records : List EquipmentRecord) (nid clk : Nat) (hd : d.userId = u) :
    ownerDatasets { datasets := db.datasets ++ [d], records := records,
                    nextId := nid, clock := clk } u =
      ownerDatasets db u ++ [d] := by
  unfold ownerDatasets
  rw [List.filter_append]
  simp [hd]

/-! ### Inversion of a successful upload -/

/-- What a successful `process_upload` guarantees: validation succeeded, the
dataset row carries the computed statistics, the owner's dataset count after
insertion is within the retention bound (otherwise the sliced-queryset delete
raises and the transaction rolls back), and the final state appends exactly
the new dataset and its records. -/
theorem process_upload_ok_inv {db : Db} {u : Nat} {fn : String} {csv : Csv}
    {db' : Db} {ds : EquipmentDataset} {st : Stats} {ws : List String}
    (h : process_upload db u fn csv = .ok (db', ds, st, ws)) :
    ∃ rows : List Row,
      parse_and_validate_csv csv = .ok (rows, ws) ∧
      st = compute_statistics rows ∧
      ds = { id := db.nextId, userId := u, filename := fn,
             uploaded_at := db.clock, total_records := st.total_equipment,
             avg_flowrate := st.avg_flowrate, avg_pressure := st.avg_pressure,
             avg_temperature := st.avg_temperature } ∧
      (ownerDatasets db u).length + 1 ≤ MAX_DATASETS_RETAINED ∧
      db' = { datasets := db.datasets ++ [ds],
              records := db.records ++ rows.map (fun r =>
                EquipmentRecord.mk db.nextId r.equipment_name r.equipment_type
                  r.flowrate r.pressure r.temperature),
              nextId := db.nextId + 1, clock := db.clock + 1 } := by
  unfold process_upload at h
  cases hv : parse_and_validate_csv csv with
  | error m =>
    rw [hv] at h
    exact Except.noConfusion h
  | ok pr =>
    obtain ⟨rows, ws0⟩ := pr
    rw [hv] at h
    unfold dataset_save at h
    dsimp only at h
    revert h
    generalize hg : ({ id := db.nextId, userId := u, filename := fn, uploaded_at := db.clock, total_records := (compute_statistics rows).total_equipment, avg_flowrate := (compute_statistics rows).avg_flowrate, avg_pressure := (compute_statistics rows).avg_pressure, avg_temperature := (compute_statistics rows).avg_temperature } : EquipmentDataset) = dsX
    intro h
    have huser : dsX.userId = u := by rw [← hg]
    have hsnoc : ownerDatasets
        { datasets := db.datasets ++ [dsX], records := db.records,
          nextId := db.nextId + 1, clock := db.clock + 1 } u =
        ownerDatasets db u ++ [dsX] :=
      ownerDatasets_snoc db u dsX db.records (db.nextId + 1) (db.clock + 1) huser
    rcases le_or_lt ((ownerDatasets db u).length + 1) MAX_DATASETS_RETAINED
      with hle | hlt
    · have hok := (enforce_retention_limit_ok_iff
        { datasets := db.datasets ++ [dsX], records := db.records,
          nextId := db.nextId + 1, clock := db.clock + 1 } u).mpr
        (by rw [hsnoc, List.length_append]; simpa using hle)
      rw [hok] at h
      dsimp only at h
      have htup := Except.ok.inj h
      have h1 := congrArg (fun t => t.1) htup
      have h2 := congrArg (fun t => t.2.1) htup
      have h3 := congrArg (fun t => t.2.2.1) htup
      have h4 := congrArg (fun t => t.2.2.2) htup
      dsimp only at h1 h2 h3 h4
      refine ⟨rows, ?_, ?_, ?_, hle, ?_⟩
      · rw [h4]
      · rw [← h3]
      · rw [← h2, ← h3, ← hg]
      · rw [← h1, h2]
    · have herr := enforce_retention_limit_error
        { datasets := db.datasets ++ [dsX], records := db.records,
          nextId := db.nextId + 1, clock := db.clock + 1 } u
        (by rw [hsnoc, List.length_append]; simpa using hlt)
      rw [herr] at h
      exact Except.noConfusion h

/-! ### Conditions for successful validation -/

theorem cleanRows_nil_of_rows_nil {csv : Csv} (h : csv.rows = []) :
    cleanRows csv = [] := by
  simp [cleanRows, rowsAfterMissingDrop, projectedRows, h]

/-- When all five canonical fields have recognized headers and at least one
row survives both drops, validation succeeds and returns exactly the
surviving rows. -/
theorem parse_and_validate_csv_ok {csv : Csv}
    (hmiss : missingFields csv.headers = [])
    (hclean : cleanRows csv ≠ []) :
    ∃ ws, parse_and_validate_csv csv = .ok (cleanRows csv, ws) := by
  have hrows : csv.rows.isEmpty = false := by
    rw [Bool.eq_false_iff]
    intro hc
    rw [List.isEmpty_iff] at hc
    exact hclean (cleanRows_nil_of_rows_nil hc)
  have hlen : ¬ (rowsAfterMissingDrop csv).length = 0 := by
    intro hc
    rw [List.length_eq_zero] at hc
    apply hclean
    rw [cleanRows, hc]
    rfl
  unfold parse_and_validate_csv
  rw [hrows, hmiss]
  simp only [Bool.false_eq_true, if_false, List.isEmpty_nil, if_true, hlen]
  exact ⟨_, rfl⟩

/-- Row accounting: the validated row count equals the input row count minus
the two drop counts. -/
theorem cleanRows_length_eq (csv : Csv) :
    (cleanRows csv).length =
      csv.rows.length - droppedMissingCount csv - droppedNonNumericCount csv := by
  have h1 : (projectedRows csv).length = csv.rows.length := List.length_map _ _
  have h2 : (rowsAfterMissingDrop csv).length ≤ (projectedRows csv).length :=
    List.length_filter_le _ _
  have h3 : (cleanRows csv).length ≤ (rowsAfterMissingDrop csv).length :=
    List.length_filterMap_le _ _
  unfold droppedMissingCount droppedNonNumericCount
  omega

/-- Constructive success of an upload: validation succeeded and the owner is
below the retention bound. -/
theorem process_upload_ok_construct {db : Db} (u : Nat) (fn : String)
    {csv : Csv} {rows : List Row} {ws : List String}
    (hv : parse_and_validate_csv csv = .ok (rows, ws))
    (hcap : (ownerDatasets db u).length + 1 ≤ MAX_DATASETS_RETAINED) :
    ∃ db' ds,
      process_upload db u fn csv = .ok (db', ds, compute_statistics rows, ws) ∧
      ds.total_records = rows.length := by
  unfold process_upload
  rw [hv]
  unfold dataset_save
  dsimp only
  revert hcap
  generalize hg : ({ id := db.nextId, userId := u, filename := fn, uploaded_at := db.clock, total_records := (compute_statistics rows).total_equipment, avg_flowrate := (compute_statistics rows).avg_flowrate, avg_pressure := (compute_statistics rows).avg_pressure, avg_temperature := (compute_statistics rows).avg_temperature } : EquipmentDataset) = dsX
  intro hcap
  have huser : dsX.userId = u := by rw [← hg]
  have hsnoc : ownerDatasets
      { datasets := db.datasets ++ [dsX], records := db.records,
        nextId := db.nextId + 1, clock := db.clock + 1 } u =
      ownerDatasets db u ++ [dsX] :=
    ownerDatasets_snoc db u dsX db.records (db.nextId + 1) (db.clock + 1) huser
  have hok := (enforce_retention_limit_ok_iff
      { datasets := db.datasets ++ [dsX], records := db.records,
        nextId := db.nextId + 1, clock := db.clock + 1 } u).mpr
      (by rw [hsnoc, List.length_append]; simpa using hcap)
  rw [hok]
  dsimp only
  refine ⟨_, dsX, rfl, ?_⟩
  rw [← hg]
  simp [compute_statistics]

/-! ### The claims -/

/-- C1: the spec requires a second "no rows remain" check after the
numeric-coercion drop.  The code has none: a CSV whose rows all survive the
missing-value drop but all fail numeric coercion validates *successfully*,
returning an empty table (with only the drop warning) instead of raising the
"no rows remain" `CSVValidationError`. -/
theorem C1_no_second_zero_row_check_after_coercion :
    parse_and_validate_csv allNonNumericCsv =
      .ok ([], ["Dropped 1 rows with non-numeric values."]) := by
  rfl

/-- C2: the spec requires retention to materialize the ids to delete and then
delete by id membership, never applying `delete()` to a sliced result set.
The code calls `.delete()` directly on the sliced queryset
`user_datasets[max_datasets:]`, which Django rejects with
`TypeError: Cannot use 'limit' or 'offset' with delete()`: saving a sixth
dataset for an owner errors out instead of evicting the oldest. -/
theorem C2_retention_deletes_on_sliced_queryset :
    dataset_save fullDb (oldDataset 5 5) =
      .error .sliceDeleteTypeError := by
  rfl

/-- C3: after every successful ingestion the owner holds at most
`MAX_DATASETS_RETAINED` datasets, and each retained dataset is among the N
most recent (fewer than N owner datasets are strictly newer).  This holds in
the code, though degenerately: an ingestion that would push the owner past
the bound never commits, because the sliced-queryset delete raises and rolls
the transaction back (see C2). -/
theorem C3_retention_invariant {db : Db} {u : Nat} {fn : String} {csv : Csv}
    {db' : Db} {ds : EquipmentDataset} {st : Stats} {ws : List String}
    (h : process_upload db u fn csv = .ok (db', ds, st, ws)) :
    (ownerDatasets db' u).length ≤ MAX_DATASETS_RETAINED ∧
    ∀ d ∈ ownerDatasets db' u,
      ((ownerDatasets db' u).filter
        (fun e => decide (d.uploaded_at < e.uploaded_at))).length <
        MAX_DATASETS_RETAINED := by
  obtain ⟨rows, hv, hst, hds, hcap, hdb'⟩ := process_upload_ok_inv h
  have huser : ds.userId = u := by rw [hds]
  have hsnoc : ownerDatasets db' u = ownerDatasets db u ++ [ds] := by
    rw [hdb']
    exact ownerDatasets_snoc db u ds _ _ _ huser
  have hlen : (ownerDatasets db' u).length ≤ MAX_DATASETS_RETAINED := by
    rw [hsnoc, List.length_append]
    simpa using hcap
  refine ⟨hlen, fun d hd => ?_⟩
  have hlt : ((ownerDatasets db' u).filter
      (fun e => decide (d.uploaded_at < e.uploaded_at))).length <
      (ownerDatasets db' u).length :=
    List.length_filter_lt_length_iff_exists.mpr ⟨d, hd, by simp⟩
  omega

/-- Witness for C3: ingesting `goodCsv` into a fresh database succeeds and
the invariant holds on the resulting state. -/
theorem C3_retention_invariant_witness :
    (ownerDatasets goodDb 1).length ≤ MAX_DATASETS_RETAINED ∧
    ∀ d ∈ ownerDatasets goodDb 1,
      ((ownerDatasets goodDb 1).filter
        (fun e => decide (d.uploaded_at < e.uploaded_at))).length <
        MAX_DATASETS_RETAINED :=
  C3_retention_invariant
    (show process_upload emptyDb 1 "f.csv" goodCsv =
      .ok (goodDb, goodDataset, goodStats, []) by with_unfolding_all rfl)

/-- C4 counterexample: a perfectly valid CSV uploaded by an owner already
holding the full quota of 5 datasets does *not* ingest successfully — the
retention step's sliced-queryset delete raises. -/
theorem C4_counterexample_owner_at_quota :
    missingFields goodCsv.headers = [] ∧
    cleanRows goodCsv ≠ [] ∧
    process_upload fullDb 1 "f.csv" goodCsv =
      .error .sliceDeleteTypeError := by
  refine ⟨by decide, by decide, by with_unfolding_all rfl⟩

/-- C4 (amended): for every CSV whose headers cover all five canonical
fields under recognized aliases — each field matched by exactly one header:
covered by `hmiss` plus `hdup`, since with two headers for one field pandas
keeps duplicate labels after `rename` and the source fails instead of
projecting — and which retains at least one clean row, ingestion succeeds
*provided the owner is below the retention bound*, and the created dataset's
record count equals the number of input data rows minus the rows dropped for
missing and for non-numeric numeric-column values.  (`hdup` restricts the
statement to the inputs on which the embedded projection agrees with the
source; the model itself does not need it.) -/
theorem C4_ingestion_success_and_record_count {db : Db} (u : Nat) (fn : String)
    {csv : Csv}
    (hmiss : missingFields csv.headers = [])
    (hdup : ∀ k ∈ requiredKeys, matchingHeaderCount csv.headers k ≤ 1)
    (hclean : cleanRows csv ≠ [])
    (hcap : (ownerDatasets db u).length + 1 ≤ MAX_DATASETS_RETAINED) :
    ∃ db' ds ws,
      process_upload db u fn csv =
        .ok (db', ds, compute_statistics (cleanRows csv), ws) ∧
      ds.total_records =
        csv.rows.length - droppedMissingCount csv - droppedNonNumericCount csv := by
  obtain ⟨ws, hv⟩ := parse_and_validate_csv_ok hmiss hclean
  obtain ⟨db', ds, hok, hcnt⟩ := process_upload_ok_construct u fn hv hcap
  exact ⟨db', ds, ws, hok, by rw [hcnt, cleanRows_length_eq]⟩

/-- Witness for C4: the spec's section-8 scenario CSV (aliased, mixed-case
headers; second row dropped for a missing flowrate) ingests with record
count 2 - 1 = 1. -/
theorem C4_ingestion_success_witness :
    ∃ db' ds ws,
      process_upload emptyDb 1 "scenario.csv" aliasCsv =
        .ok (db', ds, compute_statistics (cleanRows aliasCsv), ws) ∧
      ds.total_records =
        aliasCsv.rows.length - droppedMissingCount aliasCsv -
          droppedNonNumericCount aliasCsv :=
  C4_ingestion_success_and_record_count 1 "scenario.csv"
    (by decide) (by decide) (by decide) (by decide)

/-- C5 counterexample: the claim's "no orphan dataset with zero records ever
exists" is false — a successful ingestion of a CSV whose rows all fail
numeric coercion (see C1) creates a dataset row with `total_records = 0` and
no `EquipmentRecord` rows at all. -/
theorem C5_counterexample_zero_record_dataset :
    process_upload emptyDb 1 "bad.csv" allNonNumericCsv =
      .ok (orphanDb, orphanDataset, orphanStats,
        ["Dropped 1 rows with non-numeric values."]) ∧
    orphanDataset.total_records = 0 ∧
    orphanDb.records.filter (fun r => r.datasetId == orphanDataset.id) = [] := by
  exact ⟨by rfl, by rfl, by rfl⟩

/-- C5 (amended): when validation fails, `process_upload` propagates exactly
that `CSVValidationError` to the caller; in the atomic-transaction model the
error result carries no database state, so no dataset row and no record rows
are persisted.  (The claim's further "no zero-record dataset ever exists" is
refuted by the counterexample.) -/
theorem C5_validation_error_propagates_unchanged
    (db : Db) (u : Nat) (fn : String) (csv : Csv) (m : String)
    (hv : parse_and_validate_csv csv = .error m) :
    process_upload db u fn csv = .error (.validation m) := by
  unfold process_upload
  rw [hv]

/-- Witness for C5: uploading the unrecognized-headers CSV propagates the
missing-columns `CSVValidationError` unchanged. -/
theorem C5_validation_error_witness :
    process_upload emptyDb 1 "x.csv" fooBarCsv =
      .error (.validation
        (missingColumnsMessage (missingFields fooBarCsv.headers)
          fooBarCsv.headers)) :=
  C5_validation_error_propagates_unchanged emptyDb 1 "x.csv" fooBarCsv _ (by rfl)

/-- C6 counterexample: for the zero-record dataset created by ingesting
`allNonNumericCsv` (see C1), the summary recomputed from storage (all-zero
statistics) differs from the statistics computed at ingestion time (NaN
aggregates). -/
theorem C6_counterexample_zero_record_roundtrip :
    process_upload emptyDb 1 "bad.csv" allNonNumericCsv =
      .ok (orphanDb, orphanDataset, orphanStats,
        ["Dropped 1 rows with non-numeric values."]) ∧
    get_dataset_summary orphanDb orphanDataset ≠ orphanStats := by
  exact ⟨by rfl, by decide⟩

/-- C6 (amended): for every successfully ingested dataset *with at least one
record*, recomputing the statistics from the records reloaded from storage
(in name order) yields exactly the statistics computed at ingestion time.
The freshness hypothesis states that no pre-existing record already uses the
new dataset's id (always true of an autoincrement primary key). -/
theorem C6_summary_roundtrip {db : Db} {u : Nat} {fn : String} {csv : Csv}
    {db' : Db} {ds : EquipmentDataset} {st : Stats} {ws : List String}
    (hfresh : ∀ r ∈ db.records, r.datasetId ≠ db.nextId)
    (h : process_upload db u fn csv = .ok (db', ds, st, ws))
    (hne : 1 ≤ st.total_equipment) :
    get_dataset_summary db' ds = st := by
  obtain ⟨rows, hv, hst, hds, hcap, hdb'⟩ := process_upload_ok_inv h
  have hid : ds.id = db.nextId := by rw [hds]
  have hfilter : db'.records.filter (fun r => r.datasetId == ds.id) =
      rows.map (fun r => EquipmentRecord.mk db.nextId r.equipment_name
        r.equipment_type r.flowrate r.pressure r.temperature) := by
    rw [hdb']
    dsimp only
    rw [List.filter_append, List.filter_eq_nil_iff.mpr ?oldnone,
      List.filter_eq_self.mpr ?newall, List.nil_append]
    case oldnone =>
      intro r hr
      simpa [hid] using hfresh r hr
    case newall =>
      intro r hr
      rw [List.mem_map] at hr
      obtain ⟨x, _, hxr⟩ := hr
      rw [← hxr]
      simp [hid]
  have hperm : ((reloadRecords db' ds.id).map EquipmentRecord.toRow).Perm rows := by
    unfold reloadRecords
    rw [hfilter]
    refine ((List.perm_insertionSort _ _).map _).trans ?_
    rw [List.map_map]
    have hcomp : EquipmentRecord.toRow ∘
        (fun r : Row => EquipmentRecord.mk db.nextId r.equipment_name
          r.equipment_type r.flowrate r.pressure r.temperature) = id := by
      funext r
      rfl
    rw [hcomp, List.map_id]
  have hlenrows : rows.length = st.total_equipment := by
    rw [hst]
    rfl
  have hnonempty : (reloadRecords db' ds.id).isEmpty = false := by
    rw [Bool.eq_false_iff]
    intro hc
    rw [List.isEmpty_iff] at hc
    have hlen := hperm.length_eq
    rw [hc] at hlen
    simp at hlen
    omega
  unfold get_dataset_summary
  rw [hnonempty]
  show compute_statistics ((reloadRecords db' ds.id).map EquipmentRecord.toRow) = st
  rw [compute_statistics_perm hperm, ← hst]

/-- Witness for C6: the statistics recomputed from storage for the `goodCsv`
ingestion equal the ingestion-time statistics. -/
theorem C6_summary_roundtrip_witness :
    get_dataset_summary goodDb goodDataset = goodStats :=
  C6_summary_roundtrip
    (by intro r hr; exact absurd hr (by simp [emptyDb]))
    (show process_upload emptyDb 1 "f.csv" goodCsv =
      .ok (goodDb, goodDataset, goodStats, []) by with_unfolding_all rfl)
    (by decide)

/-- C7 counterexample: a CSV with unrecognized headers but *no data rows*
fails with the "empty" `CSVValidationError`, not with the message naming the
missing canonical fields — the empty check runs before the required-columns
check. -/
theorem C7_counterexample_header_only :
    parse_and_validate_csv fooBarHeaderOnlyCsv =
      .error "CSV file is empty or contains no data rows." ∧
    "CSV file is empty or contains no data rows." ≠
      missingColumnsMessage (missingFields fooBarHeaderOnlyCsv.headers)
        fooBarHeaderOnlyCsv.headers := by
  exact ⟨by rfl, by decide⟩

/-- C7 (amended): for every CSV *with at least one data row* in which some
required canonical field has no recognized header, validation fails with the
`CSVValidationError` whose message names the missing canonical fields and
echoes the complete original header list; `missingFields` contains exactly
the canonical fields for which no header normalizes to them. -/
theorem C7_missing_columns_error (csv : Csv)
    (hrows : csv.rows ≠ [])
    (hmiss : missingFields csv.headers ≠ []) :
    parse_and_validate_csv csv =
      .error (missingColumnsMessage (missingFields csv.headers) csv.headers) ∧
    ∀ k, k ∈ missingFields csv.headers ↔
      k ∈ requiredKeys ∧
        ∀ hd ∈ csv.headers, normalize_column_name hd ≠ some k := by
  constructor
  · have hrows' : csv.rows.isEmpty = false := by
      rw [Bool.eq_false_iff]
      intro hc
      rw [List.isEmpty_iff] at hc
      exact hrows hc
    have hmiss' : (missingFields csv.headers).isEmpty = false := by
      rw [Bool.eq_false_iff]
      intro hc
      rw [List.isEmpty_iff] at hc
      exact hmiss hc
    unfold parse_and_validate_csv
    simp only [hrows', hmiss', Bool.false_eq_true, ite_false]
  · intro k
    simp [missingFields, List.mem_filter]

/-- Witness for C7: the `foo,bar,baz` CSV with one data row fails naming all
five canonical fields. -/
theorem C7_missing_columns_error_witness :
    parse_and_validate_csv fooBarCsv =
      .error (missingColumnsMessage (missingFields fooBarCsv.headers)
        fooBarCsv.headers) ∧
    ∀ k, k ∈ missingFields fooBarCsv.headers ↔
      k ∈ requiredKeys ∧
        ∀ hd ∈ fooBarCsv.headers, normalize_column_name hd ≠ some k :=
  C7_missing_columns_error fooBarCsv (by simp [fooBarCsv]) (by decide)

/-- C8: on a one-row table the Statistics Engine succeeds — every aggregate
is defined and the standard-deviation fields are the distinct
"not computable" value `none` (NaN), not zero; with two or more rows the
standard deviation is the sample estimator: its radicand on a two-value
column is `(a - b)^2 / 2`, the `N - 1` (not `N`) denominator. -/
theorem C8_single_row_std_and_sample_estimator (r : Row) (a b : ℚ) :
    (compute_statistics [r]).total_equipment = 1 ∧
    (compute_statistics [r]).avg_flowrate = some (round4 r.flowrate) ∧
    (compute_statistics [r]).min_flowrate = some (round4 r.flowrate) ∧
    (compute_statistics [r]).max_flowrate = some (round4 r.flowrate) ∧
    (compute_statistics [r]).std_flowrate = none ∧
    (compute_statistics [r]).std_pressure = none ∧
    (compute_statistics [r]).std_temperature = none ∧
    (compute_statistics [r]).std_flowrate ≠ some 0 ∧
    sampleVariance [a, b] = some ((a - b) ^ 2 / 2) := by
  refine ⟨rfl, ?_, rfl, rfl, rfl, rfl, rfl, by simp [compute_statistics, sampleVariance], ?_⟩
  · simp [compute_statistics, colMean]
  · have h2 : ¬ ([a, b].length < 2) := by simp
    rw [sampleVariance, if_neg h2]
    congr 1
    simp only [List.map_cons, List.map_nil, List.sum_cons, List.sum_nil,
      List.length_cons, List.length_nil]
    push_cast
    field_simp
    ring

/-- Witness for C8: concrete evaluation of the single-row and two-row facts
at the `goodCsv` row and the column `[1, 3]` (sample variance `2`, where the
`N` denominator would give `1`). -/
theorem C8_single_row_std_witness :
    (compute_statistics [p1Row]).total_equipment = 1 ∧
    (compute_statistics [p1Row]).avg_flowrate = some (round4 p1Row.flowrate) ∧
    (compute_statistics [p1Row]).min_flowrate = some (round4 p1Row.flowrate) ∧
    (compute_statistics [p1Row]).max_flowrate = some (round4 p1Row.flowrate) ∧
    (compute_statistics [p1Row]).std_flowrate = none ∧
    (compute_statistics [p1Row]).std_pressure = none ∧
    (compute_statistics [p1Row]).std_temperature = none ∧
    (compute_statistics [p1Row]).std_flowrate ≠ some 0 ∧
    sampleVariance [1, 3] = some ((1 - 3) ^ 2 / 2) :=
  C8_single_row_std_and_sample_estimator p1Row 1 3

/-- C9: a row whose `equipment_name` and `equipment_type` are missing but
whose three numeric fields are valid numbers is not dropped; the missing name
and type are stored as the literal string `"nan"` (pandas `astype(str)` of
NaN, then stripped and — for the type — lower-cased). -/
theorem C9_missing_strings_become_nan (f p t : ℚ) :
    (parse_and_validate_csv
      { headers := ["equipment_name", "equipment_type", "flowrate",
                    "pressure", "temperature"],
        rows := [[Cell.missing, Cell.missing, Cell.num f, Cell.num p,
                  Cell.num t]] }).toOption.map Prod.fst =
      some [{ equipment_name := "nan", equipment_type := "nan",
              flowrate := f, pressure := p, temperature := t }] := by
  rfl

/-- Witness for C9: concrete evaluation at numeric values `1, 2, 3`. -/
theorem C9_missing_strings_become_nan_witness :
    (parse_and_validate_csv
      { headers := ["equipment_name", "equipment_type", "flowrate",
                    "pressure", "temperature"],
        rows := [[Cell.missing, Cell.missing, Cell.num 1, Cell.num 2,
                  Cell.num 3]] }).toOption.map Prod.fst =
      some [{ equipment_name := "nan", equipment_type := "nan",
              flowrate := 1, pressure := 2, temperature := 3 }] :=
  C9_missing_strings_become_nan 1 2 3

/-- C10: wherever the Statistics Engine runs — on a validated table or when
recomputing a summary from stored records — the occurrence counts in
`type_distribution` sum to `total_equipment`. -/
theorem C10_type_distribution_counts_sum (rows : List Row) (db : Db)
    (d : EquipmentDataset) :
    (∑ t ∈ (compute_statistics rows).type_distribution.toFinset,
      (compute_statistics rows).type_distribution.count t) =
      (compute_statistics rows).total_equipment ∧
    (∑ t ∈ (get_dataset_summary db d).type_distribution.toFinset,
      (get_dataset_summary db d).type_distribution.count t) =
      (get_dataset_summary db d).total_equipment := by
  have key : ∀ rs : List Row,
      (∑ t ∈ (compute_statistics rs).type_distribution.toFinset,
        (compute_statistics rs).type_distribution.count t) =
        (compute_statistics rs).total_equipment := by
    intro rs
    show (∑ t ∈ (↑(rs.map Row.equipment_type) : Multiset String).toFinset,
      Multiset.count t ↑(rs.map Row.equipment_type)) = rs.length
    rw [Multiset.toFinset_sum_count_eq, Multiset.coe_card, List.length_map]
  refine ⟨key rows, ?_⟩
  unfold get_dataset_summary
  split
  · simp [zeroStats]
  · exact key _

/-- Witness for C10: concrete evaluation on the `goodCsv` row and the
`goodDb` summary. -/
theorem C10_type_distribution_counts_sum_witness :
    (∑ t ∈ (compute_statistics [p1Row]).type_distribution.toFinset,
      (compute_statistics [p1Row]).type_distribution.count t) =
      (compute_statistics [p1Row]).total_equipment ∧
    (∑ t ∈ (get_dataset_summary goodDb goodDataset).type_distribution.toFinset,
      (get_dataset_summary goodDb goodDataset).type_distribution.count t) =
      (get_dataset_summary goodDb goodDataset).total_equipment :=
  C10_type_distribution_counts_sum [p1Row] goodDb goodDataset

end ChemViz
